import Mathlib

/-!
Verification of the G1 voice-control command pipeline core.

This file shallowly embeds the command schema (`schema/command_schema.py`),
the confidence validator and fallback orchestrator (`pipeline/fallback.py`),
and the deterministic pattern parser (`parser/regex_fallback.py`).
Real-valued confidences and millimeter values are modelled as rationals;
every comparison appearing in the code and in the claims is exact at the
constants involved, so no floating-point rounding distinction is observable.
Python keyword arguments with defaults are modelled by a structure of
construction arguments whose Lean field defaults mirror the pydantic field
defaults, so "field omitted" and "field supplied" are both expressible.
-/

set_option autoImplicit false

namespace G1

/-- Robot actions supported by the endoscope assistant (`Action` enum). -/
inductive Action where
  | MOVE_FORWARD
  | RETRACT
  | MOVE_LEFT
  | MOVE_RIGHT
  | MOVE_UP
  | MOVE_DOWN
  | ROTATE_LEFT
  | ROTATE_RIGHT
  | STOP
deriving DecidableEq, Repr

/-- Movement magnitude levels (`Magnitude` enum). -/
inductive Magnitude where
  | SMALL
  | MID
  | BIG
deriving DecidableEq, Repr

/-- Fixed magnitude-to-millimeter lookup (`MAGNITUDE_MM`):
small 2.0, mid 4.0, big 6.0. -/
def MAGNITUDE_MM : Magnitude → Rat
  | Magnitude.SMALL => mkRat 2 1
  | Magnitude.MID => mkRat 4 1
  | Magnitude.BIG => mkRat 6 1

/-- A constructed `RobotCommand` value (the pydantic model after validation). -/
structure RobotCommand where
  action : Action
  magnitude : Option Magnitude
  frame : String
  confidence : Rat
  value_mm : Option Rat
  raw_text : String
deriving DecidableEq, Repr

/-- Arguments to `RobotCommand(...)` construction. Lean field defaults mirror
the pydantic field defaults, so omitting a field in a structure literal is
exactly the Python caller omitting the keyword argument. -/
structure RobotCommandArgs where
  action : Action
  magnitude : Option Magnitude := some Magnitude.MID
  frame : String := "CAMERA"
  confidence : Rat
  value_mm : Option Rat := none
  raw_text : String
deriving DecidableEq, Repr

/-- The `model_validator(mode="after")` step
`RobotCommand._validate_stop_and_populate_value`: STOP clears magnitude and
value_mm; otherwise a present magnitude with absent value_mm populates
value_mm from the lookup table. -/
def RobotCommand.validateStopAndPopulateValue (c : RobotCommand) : RobotCommand :=
  if c.action = Action.STOP then
    { c with magnitude := none, value_mm := none }
  else
    match c.magnitude, c.value_mm with
    | some m, none => { c with value_mm := some (MAGNITUDE_MM m) }
    | _, _ => c

/-- `RobotCommand(...)` construction: the `Field(ge=0.0, le=1.0)` bound on
confidence makes construction fail (pydantic raises) outside [0,1];
otherwise the model validator normalizes the fields. -/
def RobotCommand.mk? (a : RobotCommandArgs) : Option RobotCommand :=
  if 0 ≤ a.confidence ∧ a.confidence ≤ 1 then
    some (RobotCommand.validateStopAndPopulateValue
      { action := a.action, magnitude := a.magnitude, frame := a.frame,
        confidence := a.confidence, value_mm := a.value_mm, raw_text := a.raw_text })
  else
    none

/-- `RobotCommand.is_valid`: confidence meets the hardcoded 0.7 minimum. -/
def RobotCommand.is_valid (c : RobotCommand) : Bool :=
  decide (mkRat 7 10 ≤ c.confidence)

/-- `100 * q` rounded to the nearest integer, half to even: the integer
whose two-decimal rendering is the Python format spec `:.2f` applied to the
exact rational `q`. Computed on the numerator and denominator directly
(`q * 100 = n + r / d` with `0 ≤ r < d` by floor division). -/
def roundHundredths (q : Rat) : Int :=
  let d : Int := Int.ofNat q.den
  let n := Int.fdiv (q.num * 100) d
  let r := Int.fmod (q.num * 100) d
  if 2 * r < d then n
  else if d < 2 * r then n + 1
  else if n % 2 = 0 then n else n + 1

/-- Render `q` with exactly two digits after the decimal point (`:.2f`). -/
def formatFixed2 (q : Rat) : String :=
  let n := roundHundredths q
  let sign := if n < 0 then "-" else ""
  let a := n.natAbs
  let frac := a % 100
  sign ++ toString (a / 100) ++ "." ++ (if frac < 10 then "0" else "") ++ toString frac

/-- `CommandValidator`: validates parsed commands against a confidence
threshold (constructor default 0.7). -/
structure CommandValidator where
  confidence_threshold : Rat := mkRat 7 10
deriving DecidableEq, Repr

/-- `CommandValidator.validate`: STOP always passes; other commands must meet
the confidence threshold, otherwise rejected with a two-decimal reason. -/
def CommandValidator.validate (v : CommandValidator) (c : RobotCommand) : Bool × String :=
  if c.action = Action.STOP then
    (true, "ok")
  else if c.confidence < v.confidence_threshold then
    (false, "confidence " ++ formatFixed2 c.confidence ++ " < " ++ formatFixed2 v.confidence_threshold)
  else
    (true, "ok")

/-- The safe STOP command synthesized by the orchestrator on total failure:
`RobotCommand(action=Action.STOP, magnitude=None, confidence=0.0, raw_text=text)`. -/
def safeStopCommand (text : String) : RobotCommand :=
  { action := Action.STOP, magnitude := none, frame := "CAMERA",
    confidence := mkRat 0 1, value_mm := none, raw_text := text }

/-- `FallbackManager`: LLM-first parsing with regex fallback. The two parser
collaborators are abstract functions; `Except.error` models a raised
exception, and the regex parser may additionally return no match (`none`). -/
structure FallbackManager where
  llm_parse : String → Except String RobotCommand
  regex_parse : String → Except String (Option RobotCommand)
  validator : CommandValidator

/-- Class constant `FallbackManager.FALLBACK_CONFIDENCE_THRESHOLD = 0.5`. -/
def FallbackManager.FALLBACK_CONFIDENCE_THRESHOLD : Rat := mkRat 1 2

/-- The regex-tier half of `parse_with_fallback` (the code after the LLM
attempt): use the regex result if any, else synthesize the safe STOP. -/
def FallbackManager.regexTier (m : FallbackManager) (text : String) : RobotCommand × String :=
  match m.regex_parse text with
  | Except.ok (some cmd) => (cmd, "regex")
  | Except.ok none => (safeStopCommand text, "failed")
  | Except.error _ => (safeStopCommand text, "failed")

/-- `FallbackManager.parse_with_fallback`: try the LLM first; accept its
result when confidence meets the fallback threshold; otherwise (including on
any LLM exception) fall through to the regex tier. Total by construction:
it never raises. -/
def FallbackManager.parse_with_fallback (m : FallbackManager) (text : String) :
    RobotCommand × String :=
  match m.llm_parse text with
  | Except.ok cmd =>
      if FallbackManager.FALLBACK_CONFIDENCE_THRESHOLD ≤ cmd.confidence then (cmd, "llm")
      else m.regexTier text
  | Except.error _ => m.regexTier text

/-! ## Deterministic pattern parser (`parser/regex_fallback.py`)

The regex patterns used by `RegexFallbackParser` are all of the shape
`\b(alt1|alt2|...)\b` with `re.IGNORECASE`, searched over the lower-cased
text, where each alternative is a literal word possibly containing `\s+`
(one or more whitespace characters), an optional apostrophe, or an optional
hyphen-or-space. They are embedded as lists of alternatives over a small
token alphabet, with word-boundary search implemented directly: since every
alternative both starts and ends with a word character, a word-bounded
occurrence is a match whose preceding character (if any) and following
character (if any) are non-word characters. -/

/-- A word character for `\b` purposes: `[a-zA-Z0-9_]`. -/
def isWordChar (c : Char) : Bool :=
  c.isAlphanum || c = '_'

/-- One token of a pattern alternative. -/
inductive Tok where
  /-- A literal character. -/
  | lit (c : Char)
  /-- An optional literal character (`c?`). Never ambiguous in these
  patterns: the character never equals the next literal. -/
  | opt (c : Char)
  /-- `\s+`: one or more whitespace characters. Matched greedily, which is
  equivalent to the regex since every following token is a letter. -/
  | ws
  /-- `[- ]?`: an optional hyphen or space. -/
  | optHS
deriving DecidableEq, Repr

/-- Match a list of tokens at the front of `s`, returning the remaining
suffix on success. -/
def matchToks : List Tok → List Char → Option (List Char)
  | [], s => some s
  | Tok.lit c :: ts, d :: s => if d = c then matchToks ts s else none
  | Tok.lit _ :: _, [] => none
  | Tok.opt c :: ts, d :: s => if d = c then matchToks ts s else matchToks ts (d :: s)
  | Tok.opt _ :: ts, [] => matchToks ts []
  | Tok.ws :: ts, d :: s =>
      if d.isWhitespace then matchToks ts (s.dropWhile Char.isWhitespace) else none
  | Tok.ws :: _, [] => none
  | Tok.optHS :: ts, d :: s =>
      if d = '-' || d = ' ' then matchToks ts s else matchToks ts (d :: s)
  | Tok.optHS :: ts, [] => matchToks ts []

/-- Match one alternative at the front of `s` with a word boundary at the
end of the match (the alternative itself ends in a word character). -/
def matchAtBounded (alt : List Tok) (s : List Char) : Bool :=
  match matchToks alt s with
  | some [] => true
  | some (c :: _) => !(isWordChar c)
  | none => false

/-- Scan `s` for a word-bounded occurrence of any alternative; `prevWord`
records whether the character before the current position is a word
character (false at the start of the text). -/
def searchFrom (alts : List (List Tok)) : List Char → Bool → Bool
  | [], _ => false
  | c :: s, prevWord =>
      (!prevWord && alts.any fun a => matchAtBounded a (c :: s))
      || searchFrom alts s (isWordChar c)

/-- `re.search` truthiness for a pattern `\b(alt1|...|altN)\b`. -/
def reSearch (alts : List (List Tok)) (s : List Char) : Bool :=
  searchFrom alts s false

/-- Literal word as a token list. -/
def lits (s : String) : List Tok :=
  s.data.map Tok.lit

/-- The apostrophe character (codepoint 39). -/
def apos : Char :=
  Char.ofNat 39

namespace RegexFallbackParser

/-- Class constant `RegexFallbackParser.CONFIDENCE = 0.6`. -/
def CONFIDENCE : Rat := mkRat 3 5

/-- `_STOP_RE`: `\b(stop|halt|freeze|hold|don'?t\s+move)\b`. -/
def STOP_RE : List (List Tok) :=
  [lits "stop", lits "halt", lits "freeze", lits "hold",
   lits "don" ++ [Tok.opt apos, Tok.lit 't', Tok.ws] ++ lits "move"]

/-- `_ROTATE_LEFT_RE`:
`\b(rotate\s+left|twist\s+left|turn\s+left|counter[- ]?clockwise)\b`. -/
def ROTATE_LEFT_RE : List (List Tok) :=
  [lits "rotate" ++ Tok.ws :: lits "left",
   lits "twist" ++ Tok.ws :: lits "left",
   lits "turn" ++ Tok.ws :: lits "left",
   lits "counter" ++ Tok.optHS :: lits "clockwise"]

/-- `_ROTATE_RIGHT_RE`:
`\b(rotate\s+right|twist\s+right|turn\s+right|clockwise)\b`. -/
def ROTATE_RIGHT_RE : List (List Tok) :=
  [lits "rotate" ++ Tok.ws :: lits "right",
   lits "twist" ++ Tok.ws :: lits "right",
   lits "turn" ++ Tok.ws :: lits "right",
   lits "clockwise"]

/-- `_DIRECTION_PATTERNS`: the fixed ordered list of direction families. -/
def DIRECTION_PATTERNS : List (List (List Tok) × Action) :=
  [([lits "up", lits "raise", lits "higher"], Action.MOVE_UP),
   ([lits "down", lits "lower"], Action.MOVE_DOWN),
   ([lits "left"], Action.MOVE_LEFT),
   ([lits "right"], Action.MOVE_RIGHT),
   ([lits "forward", lits "advance", lits "push", lits "deeper"], Action.MOVE_FORWARD),
   ([lits "back", lits "retract", lits "pull", lits "withdraw"], Action.RETRACT)]

/-- `_SMALL_RE`: `\b(a\s+little|slightly|tiny|nudge|bit|smidge)\b`. -/
def SMALL_RE : List (List Tok) :=
  [lits "a" ++ Tok.ws :: lits "little",
   lits "slightly", lits "tiny", lits "nudge", lits "bit", lits "smidge"]

/-- `_BIG_RE`: `\b(a\s+lot|big|far|much|significantly|way)\b`. -/
def BIG_RE : List (List Tok) :=
  [lits "a" ++ Tok.ws :: lits "lot",
   lits "big", lits "far", lits "much", lits "significantly", lits "way"]

/-- `RegexFallbackParser._get_magnitude`: small cues first, then big cues,
defaulting to MID. -/
def get_magnitude (lower : List Char) : Magnitude :=
  if reSearch SMALL_RE lower then Magnitude.SMALL
  else if reSearch BIG_RE lower then Magnitude.BIG
  else Magnitude.MID

/-- The `for pattern, action in self._DIRECTION_PATTERNS` loop: the first
family in list order with a textual match wins. -/
def matchDirections (lower : List Char) : List (List (List Tok) × Action) → Option Action
  | [] => none
  | (pat, act) :: rest => if reSearch pat lower then some act else matchDirections lower rest

/-- `RegexFallbackParser.parse`: lower-case the text, then try STOP,
rotate-left, rotate-right, the direction families in order, else no match.
Commands are built through `RobotCommand.mk?`; with the fixed confidence
0.6 that construction always succeeds. -/
def parse (text : String) : Option RobotCommand :=
  let lower := text.data.map Char.toLower
  if reSearch STOP_RE lower then
    RobotCommand.mk? { action := Action.STOP, magnitude := none,
                       confidence := CONFIDENCE, raw_text := text }
  else if reSearch ROTATE_LEFT_RE lower then
    RobotCommand.mk? { action := Action.ROTATE_LEFT, magnitude := some (get_magnitude lower),
                       confidence := CONFIDENCE, raw_text := text }
  else if reSearch ROTATE_RIGHT_RE lower then
    RobotCommand.mk? { action := Action.ROTATE_RIGHT, magnitude := some (get_magnitude lower),
                       confidence := CONFIDENCE, raw_text := text }
  else
    match matchDirections lower DIRECTION_PATTERNS with
    | some act =>
        RobotCommand.mk? { action := act, magnitude := some (get_magnitude lower),
                           confidence := CONFIDENCE, raw_text := text }
    | none => none

end RegexFallbackParser

/-- Boolean prefix test on character lists. -/
def prefixB : List Char → List Char → Bool
  | [], _ => true
  | _ :: _, [] => false
  | a :: as, b :: bs => a = b && prefixB as bs

/-- Boolean substring test: `substrB needle hay` holds when `needle` occurs
contiguously inside `hay`. -/
def substrB (needle : List Char) : List Char → Bool
  | [] => needle.isEmpty
  | c :: rest => prefixB needle (c :: rest) || substrB needle rest

/-- Concrete commands used to instantiate the theorems below. -/
def cmd69 : RobotCommand :=
  { action := Action.MOVE_UP, magnitude := some Magnitude.MID, frame := "CAMERA",
    confidence := mkRat 69 100, value_mm := some (mkRat 4 1), raw_text := "move up" }

/-- A 0.6-confidence non-stop command, as the semantic tier might return. -/
def cmd06 : RobotCommand :=
  { action := Action.MOVE_UP, magnitude := some Magnitude.MID, frame := "CAMERA",
    confidence := mkRat 3 5, value_mm := some (mkRat 4 1), raw_text := "move up" }

/-- A STOP command with the regex tier confidence 0.6. -/
def stop06 : RobotCommand :=
  { action := Action.STOP, magnitude := none, frame := "CAMERA",
    confidence := mkRat 3 5, value_mm := none, raw_text := "stop" }

/-! ## Helper lemmas -/

theorem validateStopAndPopulateValue_action (c : RobotCommand) :
    (RobotCommand.validateStopAndPopulateValue c).action = c.action := by
  unfold RobotCommand.validateStopAndPopulateValue
  split
  · rfl
  · split <;> rfl

theorem validateStopAndPopulateValue_confidence (c : RobotCommand) :
    (RobotCommand.validateStopAndPopulateValue c).confidence = c.confidence := by
  unfold RobotCommand.validateStopAndPopulateValue
  split
  · rfl
  · split <;> rfl

theorem mk?_eq_some_iff (a : RobotCommandArgs) (c : RobotCommand) :
    RobotCommand.mk? a = some c ↔
      (0 ≤ a.confidence ∧ a.confidence ≤ 1)
      ∧ c = RobotCommand.validateStopAndPopulateValue
          { action := a.action, magnitude := a.magnitude, frame := a.frame,
            confidence := a.confidence, value_mm := a.value_mm, raw_text := a.raw_text } := by
  unfold RobotCommand.mk?
  split
  · rename_i h
    constructor
    · intro hc
      exact ⟨h, (Option.some_inj.mp hc).symm⟩
    · intro ⟨_, hc⟩
      rw [hc]
  · rename_i h
    constructor
    · intro hc
      exact absurd hc (by simp)
    · intro ⟨hb, _⟩
      exact absurd hb h

theorem parse_with_fallback_ok (m : FallbackManager) (text : String) (cmd : RobotCommand)
    (h : m.llm_parse text = Except.ok cmd) :
    m.parse_with_fallback text =
      if FallbackManager.FALLBACK_CONFIDENCE_THRESHOLD ≤ cmd.confidence then (cmd, "llm")
      else m.regexTier text := by
  unfold FallbackManager.parse_with_fallback
  rw [h]

theorem parse_with_fallback_error (m : FallbackManager) (text : String) (e : String)
    (h : m.llm_parse text = Except.error e) :
    m.parse_with_fallback text = m.regexTier text := by
  unfold FallbackManager.parse_with_fallback
  rw [h]

theorem regexTier_ok_some (m : FallbackManager) (text : String) (cmd : RobotCommand)
    (h : m.regex_parse text = Except.ok (some cmd)) :
    m.regexTier text = (cmd, "regex") := by
  unfold FallbackManager.regexTier
  rw [h]

theorem regexTier_ok_none (m : FallbackManager) (text : String)
    (h : m.regex_parse text = Except.ok none) :
    m.regexTier text = (safeStopCommand text, "failed") := by
  unfold FallbackManager.regexTier
  rw [h]

theorem regexTier_error (m : FallbackManager) (text : String) (e : String)
    (h : m.regex_parse text = Except.error e) :
    m.regexTier text = (safeStopCommand text, "failed") := by
  unfold FallbackManager.regexTier
  rw [h]

theorem mk?_isSome_iff (a : RobotCommandArgs) :
    (RobotCommand.mk? a).isSome = true ↔ (0 ≤ a.confidence ∧ a.confidence ≤ 1) := by
  unfold RobotCommand.mk?
  split
  · rename_i h
    simpa using h
  · rename_i h
    simpa using h

theorem mk?_action (a : RobotCommandArgs) (c : RobotCommand)
    (h : RobotCommand.mk? a = some c) : c.action = a.action := by
  obtain ⟨-, hc⟩ := (mk?_eq_some_iff a c).mp h
  rw [hc, validateStopAndPopulateValue_action]

theorem matchDirections_first (lower : List Char) (ps : List (List (List Tok) × Action)) :
    ∀ (k : Nat) (hk : k < ps.length),
      (∀ j, (hj : j < k) → reSearch (ps.get ⟨j, Nat.lt_trans hj hk⟩).1 lower = false) →
      reSearch (ps.get ⟨k, hk⟩).1 lower = true →
      RegexFallbackParser.matchDirections lower ps = some (ps.get ⟨k, hk⟩).2 := by
  induction ps with
  | nil =>
      intro k hk
      exact absurd hk (by simp)
  | cons hd rest ih =>
      intro k hk hprev hmatch
      rcases hd with ⟨pat, act⟩
      match k with
      | 0 =>
          unfold RegexFallbackParser.matchDirections
          rw [if_pos (show reSearch pat lower = true from hmatch)]
          rfl
      | Nat.succ k =>
          have h0 : reSearch pat lower = false := hprev 0 (Nat.succ_pos k)
          unfold RegexFallbackParser.matchDirections
          rw [if_neg (by simp [h0])]
          exact ih k (Nat.lt_of_succ_lt_succ hk)
            (fun j hj => hprev (j + 1) (Nat.succ_lt_succ hj)) hmatch

theorem matchDirections_none (lower : List Char) :
    ∀ (ps : List (List (List Tok) × Action)),
      (∀ j, (hj : j < ps.length) → reSearch (ps.get ⟨j, hj⟩).1 lower = false) →
      RegexFallbackParser.matchDirections lower ps = none := by
  intro ps
  induction ps with
  | nil =>
      intro
      rfl
  | cons hd rest ih =>
      intro h
      rcases hd with ⟨pat, act⟩
      have h0 : reSearch pat lower = false := h 0 (by simp)
      unfold RegexFallbackParser.matchDirections
      rw [if_neg (by simp [h0])]
      exact ih fun j hj => h (j + 1) (by simpa using Nat.succ_lt_succ hj)

/-! ## Claim theorems -/

/-- C1: for every Command with action = STOP, `validate` returns
`(true, "ok")`, regardless of the command confidence and of the configured
validation threshold. -/
theorem C1_stop_always_accepted (v : CommandValidator) (c : RobotCommand)
    (h : c.action = Action.STOP) :
    v.validate c = (true, "ok") := by
  unfold CommandValidator.validate
  rw [if_pos h]

/-- C1 witness: a STOP command with confidence 0.0 validates as
`(true, "ok")` even at threshold 0.7. -/
theorem C1_witness :
    (safeStopCommand "stop").action = Action.STOP
    ∧ (safeStopCommand "stop").confidence = mkRat 0 1
    ∧ CommandValidator.validate { confidence_threshold := mkRat 7 10 }
        (safeStopCommand "stop") = (true, "ok") :=
  ⟨rfl, rfl,
   C1_stop_always_accepted { confidence_threshold := mkRat 7 10 } (safeStopCommand "stop") rfl⟩

/-- C3: every successful construction with action = STOP yields
magnitude = none and value_mm = none, even when the caller supplied a
magnitude or a value_mm. -/
theorem C3_stop_clears_magnitude_and_value (a : RobotCommandArgs) (c : RobotCommand)
    (ha : a.action = Action.STOP) (h : RobotCommand.mk? a = some c) :
    c.magnitude = none ∧ c.value_mm = none := by
  obtain ⟨-, hc⟩ := (mk?_eq_some_iff a c).mp h
  rw [hc]
  unfold RobotCommand.validateStopAndPopulateValue
  rw [if_pos ha]
  exact ⟨rfl, rfl⟩

/-- C3 witness: constructing a STOP command with an explicitly supplied
magnitude and value_mm succeeds and clears both fields. -/
theorem C3_witness :
    RobotCommand.mk?
        { action := Action.STOP, magnitude := some Magnitude.BIG,
          confidence := mkRat 1 1, value_mm := some (mkRat 9 1), raw_text := "stop" }
      = some { action := Action.STOP, magnitude := none, frame := "CAMERA",
               confidence := mkRat 1 1, value_mm := none, raw_text := "stop" }
    ∧ ({ action := Action.STOP, magnitude := none, frame := "CAMERA",
         confidence := mkRat 1 1, value_mm := none, raw_text := "stop" } : RobotCommand).magnitude = none := by
  refine ⟨by decide, ?_⟩
  exact (C3_stop_clears_magnitude_and_value
    { action := Action.STOP, magnitude := some Magnitude.BIG,
      confidence := mkRat 1 1, value_mm := some (mkRat 9 1), raw_text := "stop" }
    { action := Action.STOP, magnitude := none, frame := "CAMERA",
      confidence := mkRat 1 1, value_mm := none, raw_text := "stop" }
    rfl (by decide)).1

/-- C7: construction fails exactly when confidence lies outside [0,1] (no
clamping: a successful construction keeps the supplied confidence value
unchanged). -/
theorem C7_confidence_range_gate (a : RobotCommandArgs) :
    ((RobotCommand.mk? a).isSome = true ↔ (0 ≤ a.confidence ∧ a.confidence ≤ 1))
    ∧ (∀ c, RobotCommand.mk? a = some c → c.confidence = a.confidence) := by
  refine ⟨mk?_isSome_iff a, ?_⟩
  intro c h
  obtain ⟨-, hc⟩ := (mk?_eq_some_iff a c).mp h
  rw [hc, validateStopAndPopulateValue_confidence]

/-- C7 witness: confidence 0.0 and 1.0 both succeed; 1.1 and -0.1 both
fail. -/
theorem C7_witness :
    (RobotCommand.mk? { action := Action.MOVE_UP, confidence := mkRat 0 1, raw_text := "up" }).isSome = true
    ∧ (RobotCommand.mk? { action := Action.MOVE_UP, confidence := mkRat 1 1, raw_text := "up" }).isSome = true
    ∧ (RobotCommand.mk? { action := Action.MOVE_UP, confidence := mkRat 11 10, raw_text := "up" }).isSome = false
    ∧ (RobotCommand.mk? { action := Action.MOVE_UP, confidence := mkRat (-1) 10, raw_text := "up" }).isSome = false := by
  refine ⟨?_, ?_, ?_, ?_⟩
  · exact (C7_confidence_range_gate
      { action := Action.MOVE_UP, confidence := mkRat 0 1, raw_text := "up" }).1.mpr (by decide)
  · exact (C7_confidence_range_gate
      { action := Action.MOVE_UP, confidence := mkRat 1 1, raw_text := "up" }).1.mpr (by decide)
  · refine Bool.eq_false_iff.mpr fun hs => ?_
    exact absurd ((C7_confidence_range_gate
      { action := Action.MOVE_UP, confidence := mkRat 11 10, raw_text := "up" }).1.mp hs) (by decide)
  · refine Bool.eq_false_iff.mpr fun hs => ?_
    exact absurd ((C7_confidence_range_gate
      { action := Action.MOVE_UP, confidence := mkRat (-1) 10, raw_text := "up" }).1.mp hs) (by decide)

/-- C9: when a successful construction resolves a non-none magnitude, an
absent value_mm argument is populated from the lookup table and an
explicitly supplied value_mm is kept unchanged. -/
theorem C9_value_mm_population (a : RobotCommandArgs) (c : RobotCommand) (m : Magnitude)
    (h : RobotCommand.mk? a = some c) (hm : c.magnitude = some m) :
    (a.value_mm = none → c.value_mm = some (MAGNITUDE_MM m))
    ∧ (∀ v, a.value_mm = some v → c.value_mm = some v) := by
  obtain ⟨-, hc⟩ := (mk?_eq_some_iff a c).mp h
  rw [hc] at hm ⊢
  unfold RobotCommand.validateStopAndPopulateValue at hm ⊢
  by_cases hstop : a.action = Action.STOP
  · rw [if_pos hstop] at hm
    exact absurd hm (by simp)
  · rw [if_neg hstop] at hm ⊢
    constructor
    · intro hv
      rcases hmag : a.magnitude with - | m'
      · simp [hmag, hv] at hm
      · simp only [hmag, hv] at hm ⊢
        simp at hm
        rw [hm]
    · intro v hv
      rcases hmag : a.magnitude with - | m'
      · simp [hmag, hv] at hm ⊢
      · simp [hmag, hv] at hm ⊢

/-- C9 witness: with magnitude small and value_mm omitted the result holds
value_mm = 2.0; an explicit value_mm = 9.0 is kept. -/
theorem C9_witness :
    RobotCommand.mk?
        { action := Action.MOVE_LEFT, magnitude := some Magnitude.SMALL,
          confidence := mkRat 1 1, raw_text := "left" }
      = some { action := Action.MOVE_LEFT, magnitude := some Magnitude.SMALL, frame := "CAMERA",
               confidence := mkRat 1 1, value_mm := some (mkRat 2 1), raw_text := "left" }
    ∧ ({ action := Action.MOVE_LEFT, magnitude := some Magnitude.SMALL, frame := "CAMERA",
         confidence := mkRat 1 1, value_mm := some (mkRat 2 1), raw_text := "left" } : RobotCommand).value_mm
        = some (MAGNITUDE_MM Magnitude.SMALL)
    ∧ RobotCommand.mk?
        { action := Action.MOVE_LEFT, magnitude := some Magnitude.SMALL,
          confidence := mkRat 1 1, value_mm := some (mkRat 9 1), raw_text := "left" }
      = some { action := Action.MOVE_LEFT, magnitude := some Magnitude.SMALL, frame := "CAMERA",
               confidence := mkRat 1 1, value_mm := some (mkRat 9 1), raw_text := "left" }
    ∧ ({ action := Action.MOVE_LEFT, magnitude := some Magnitude.SMALL, frame := "CAMERA",
         confidence := mkRat 1 1, value_mm := some (mkRat 9 1), raw_text := "left" } : RobotCommand).value_mm
        = some (mkRat 9 1) := by
  refine ⟨by decide, ?_, by decide, ?_⟩
  · exact (C9_value_mm_population
      { action := Action.MOVE_LEFT, magnitude := some Magnitude.SMALL,
        confidence := mkRat 1 1, raw_text := "left" }
      { action := Action.MOVE_LEFT, magnitude := some Magnitude.SMALL, frame := "CAMERA",
        confidence := mkRat 1 1, value_mm := some (mkRat 2 1), raw_text := "left" }
      Magnitude.SMALL (by decide) rfl).1 rfl
  · exact (C9_value_mm_population
      { action := Action.MOVE_LEFT, magnitude := some Magnitude.SMALL,
        confidence := mkRat 1 1, value_mm := some (mkRat 9 1), raw_text := "left" }
      { action := Action.MOVE_LEFT, magnitude := some Magnitude.SMALL, frame := "CAMERA",
        confidence := mkRat 1 1, value_mm := some (mkRat 9 1), raw_text := "left" }
      Magnitude.SMALL (by decide) rfl).2 (mkRat 9 1) rfl

/-- C8 counterexample: explicitly supplying magnitude = none to a non-stop
construction succeeds but yields magnitude = none, not the claimed mid. -/
theorem C8_counterexample :
    (RobotCommand.mk? { action := Action.MOVE_UP, magnitude := none,
                        confidence := mkRat 1 1, raw_text := "up" }).isSome = true
    ∧ ¬ ((RobotCommand.mk? { action := Action.MOVE_UP, magnitude := none,
                             confidence := mkRat 1 1, raw_text := "up" }).map RobotCommand.magnitude
          = some (some Magnitude.MID)) := by
  exact ⟨by decide, by decide⟩

/-- C8 (amended): for non-stop constructions the magnitude argument is kept
unchanged, so the mid default arises exactly when the magnitude field is
omitted (the field default), while an explicitly supplied none stays none. -/
theorem C8_magnitude_default_only_when_omitted :
    (∀ (a : RobotCommandArgs) (c : RobotCommand), a.action ≠ Action.STOP →
        RobotCommand.mk? a = some c → c.magnitude = a.magnitude)
    ∧ (∀ (act : Action) (conf : Rat) (raw : String) (c : RobotCommand), act ≠ Action.STOP →
        RobotCommand.mk? { action := act, confidence := conf, raw_text := raw } = some c →
        c.magnitude = some Magnitude.MID) := by
  have hpass : ∀ (a : RobotCommandArgs) (c : RobotCommand), a.action ≠ Action.STOP →
      RobotCommand.mk? a = some c → c.magnitude = a.magnitude := by
    intro a c ha h
    obtain ⟨-, hc⟩ := (mk?_eq_some_iff a c).mp h
    rw [hc]
    unfold RobotCommand.validateStopAndPopulateValue
    rw [if_neg ha]
    split <;> rfl
  exact ⟨hpass, fun act conf raw c hact h => hpass _ c hact h⟩

/-- C8 witness: an omitted magnitude resolves to mid; an explicit none
stays none. -/
theorem C8_witness :
    RobotCommand.mk? { action := Action.MOVE_DOWN, confidence := mkRat 1 1, raw_text := "down" }
      = some { action := Action.MOVE_DOWN, magnitude := some Magnitude.MID, frame := "CAMERA",
               confidence := mkRat 1 1, value_mm := some (mkRat 4 1), raw_text := "down" }
    ∧ ({ action := Action.MOVE_DOWN, magnitude := some Magnitude.MID, frame := "CAMERA",
         confidence := mkRat 1 1, value_mm := some (mkRat 4 1), raw_text := "down" } : RobotCommand).magnitude
        = some Magnitude.MID := by
  refine ⟨by decide, ?_⟩
  exact C8_magnitude_default_only_when_omitted.2 Action.MOVE_DOWN (mkRat 1 1) "down"
    { action := Action.MOVE_DOWN, magnitude := some Magnitude.MID, frame := "CAMERA",
      confidence := mkRat 1 1, value_mm := some (mkRat 4 1), raw_text := "down" }
    (by decide) (by decide)

/-- C6: a non-stop command is accepted exactly when its confidence meets the
configured threshold; a rejection reason states the measured and required
confidence to two decimal places. -/
theorem C6_nonstop_threshold_and_reason (v : CommandValidator) (c : RobotCommand)
    (h : c.action ≠ Action.STOP) :
    ((v.validate c).1 = true ↔ v.confidence_threshold ≤ c.confidence)
    ∧ (c.confidence < v.confidence_threshold →
        (v.validate c).2 =
          "confidence " ++ formatFixed2 c.confidence ++ " < "
            ++ formatFixed2 v.confidence_threshold) := by
  unfold CommandValidator.validate
  rw [if_neg h]
  by_cases hc : c.confidence < v.confidence_threshold
  · rw [if_pos hc]
    refine ⟨?_, fun _ => rfl⟩
    constructor
    · intro ht
      exact absurd ht (by simp)
    · intro hle
      exact absurd hc (not_lt.mpr hle)
  · rw [if_neg hc]
    refine ⟨?_, fun hcc => absurd hcc hc⟩
    simpa using not_lt.mp hc

/-- C6 witness: confidence 0.69 against threshold 0.70 is rejected with a
message containing both "0.69" and "0.70". -/
theorem C6_witness :
    (CommandValidator.validate { confidence_threshold := mkRat 7 10 } cmd69).1 = false
    ∧ (CommandValidator.validate { confidence_threshold := mkRat 7 10 } cmd69).2
        = "confidence 0.69 < 0.70"
    ∧ substrB "0.69".data "confidence 0.69 < 0.70".data = true
    ∧ substrB "0.70".data "confidence 0.69 < 0.70".data = true := by
  have h := C6_nonstop_threshold_and_reason
    { confidence_threshold := mkRat 7 10 } cmd69 (by decide)
  refine ⟨?_, ?_, by decide, by decide⟩
  · refine Bool.eq_false_iff.mpr fun ht => ?_
    exact absurd (h.1.mp ht) (by decide)
  · rw [h.2 (by decide)]
    decide

/-- C2: `parse_with_fallback` is a total function (it returns a result for
every input and collaborator behavior, never propagating an exception);
when the semantic tier fails or scores below the fallback threshold and the
deterministic tier returns absent, the result is the schema-valid safe STOP
command with confidence 0.0 and source "failed". -/
theorem C2_total_failure_safe_stop (m : FallbackManager) (text : String)
    (hllm : ∀ cmd, m.llm_parse text = Except.ok cmd →
      cmd.confidence < FallbackManager.FALLBACK_CONFIDENCE_THRESHOLD)
    (hreg : m.regex_parse text = Except.ok none) :
    m.parse_with_fallback text = (safeStopCommand text, "failed")
    ∧ RobotCommand.mk? { action := Action.STOP, magnitude := none,
                         confidence := mkRat 0 1, raw_text := text } = some (safeStopCommand text)
    ∧ (safeStopCommand text).action = Action.STOP
    ∧ (safeStopCommand text).confidence = mkRat 0 1 := by
  refine ⟨?_, rfl, rfl, rfl⟩
  cases hl : m.llm_parse text with
  | ok cmd =>
      rw [parse_with_fallback_ok m text cmd hl, if_neg (not_le.mpr (hllm cmd hl)),
          regexTier_ok_none m text hreg]
  | error e =>
      rw [parse_with_fallback_error m text e hl, regexTier_ok_none m text hreg]

/-- C2 witness: with a raising semantic tier and a no-match deterministic
tier, the orchestrator returns the safe STOP with source "failed". -/
theorem C2_witness :
    FallbackManager.parse_with_fallback
        { llm_parse := fun _ => Except.error "boom",
          regex_parse := fun _ => Except.ok none,
          validator := { confidence_threshold := mkRat 7 10 } }
        "how are you today"
      = (safeStopCommand "how are you today", "failed")
    ∧ (safeStopCommand "how are you today").action = Action.STOP
    ∧ (safeStopCommand "how are you today").confidence = mkRat 0 1 := by
  have h := C2_total_failure_safe_stop
    { llm_parse := fun _ => Except.error "boom",
      regex_parse := fun _ => Except.ok none,
      validator := { confidence_threshold := mkRat 7 10 } }
    "how are you today"
    (fun cmd hcmd => by simp at hcmd) rfl
  exact ⟨h.1, h.2.2.1, h.2.2.2⟩

/-- C4: the orchestrator returns the semantic tier command with source
"llm" exactly when that tier succeeds with confidence at or above the
fallback threshold 0.5; the decision ignores the validator entirely, so a
0.6-confidence command is selected with source "llm" yet rejected by
`validate` at threshold 0.7. -/
theorem C4_semantic_acceptance_independent_of_validator (m : FallbackManager) (text : String) :
    (∀ cmd, m.llm_parse text = Except.ok cmd →
      (m.parse_with_fallback text = (cmd, "llm")
        ↔ FallbackManager.FALLBACK_CONFIDENCE_THRESHOLD ≤ cmd.confidence))
    ∧ ((m.parse_with_fallback text).2 = "llm" →
        ∃ cmd, m.llm_parse text = Except.ok cmd
          ∧ FallbackManager.FALLBACK_CONFIDENCE_THRESHOLD ≤ cmd.confidence
          ∧ m.parse_with_fallback text = (cmd, "llm"))
    ∧ (∀ v : CommandValidator,
        FallbackManager.parse_with_fallback { m with validator := v } text
          = m.parse_with_fallback text)
    ∧ (∀ cmd, m.llm_parse text = Except.ok cmd → cmd.confidence = mkRat 3 5 →
        cmd.action ≠ Action.STOP →
        m.parse_with_fallback text = (cmd, "llm")
        ∧ (CommandValidator.validate { confidence_threshold := mkRat 7 10 } cmd).1 = false) := by
  have htag : (m.regexTier text).2 = "regex" ∨ (m.regexTier text).2 = "failed" := by
    cases hr : m.regex_parse text with
    | ok o =>
        cases o with
        | none => rw [regexTier_ok_none m text hr]; exact Or.inr rfl
        | some cmd => rw [regexTier_ok_some m text cmd hr]; exact Or.inl rfl
    | error e => rw [regexTier_error m text e hr]; exact Or.inr rfl
  have htag' : (m.regexTier text).2 ≠ "llm" := by
    rcases htag with h | h <;> rw [h] <;> decide
  refine ⟨?_, ?_, ?_, ?_⟩
  · intro cmd hl
    rw [parse_with_fallback_ok m text cmd hl]
    by_cases hc : FallbackManager.FALLBACK_CONFIDENCE_THRESHOLD ≤ cmd.confidence
    · rw [if_pos hc]
      exact ⟨fun _ => hc, fun _ => rfl⟩
    · rw [if_neg hc]
      refine ⟨fun he => ?_, fun hcc => absurd hcc hc⟩
      exact absurd (congrArg Prod.snd he) htag'
  · intro hsrc
    cases hl : m.llm_parse text with
    | ok cmd =>
        rw [parse_with_fallback_ok m text cmd hl] at hsrc
        by_cases hc : FallbackManager.FALLBACK_CONFIDENCE_THRESHOLD ≤ cmd.confidence
        · rw [if_pos hc] at hsrc
          exact ⟨cmd, rfl, hc, by rw [parse_with_fallback_ok m text cmd hl, if_pos hc]⟩
        · rw [if_neg hc] at hsrc
          exact absurd hsrc htag'
    | error e =>
        rw [parse_with_fallback_error m text e hl] at hsrc
        exact absurd hsrc htag'
  · intro v
    rfl
  · intro cmd hl hconf hact
    have hle : FallbackManager.FALLBACK_CONFIDENCE_THRESHOLD ≤ cmd.confidence := by
      rw [hconf]; decide
    have hlt : cmd.confidence < mkRat 7 10 := by
      rw [hconf]; decide
    refine ⟨by rw [parse_with_fallback_ok m text cmd hl, if_pos hle], ?_⟩
    unfold CommandValidator.validate
    rw [if_neg hact, if_pos hlt]

/-- C4 witness: a semantic-tier result with confidence 0.6 is selected with
source "llm" yet rejected by the validator at threshold 0.7. -/
theorem C4_witness :
    FallbackManager.parse_with_fallback
        { llm_parse := fun _ => Except.ok cmd06,
          regex_parse := fun _ => Except.ok none,
          validator := { confidence_threshold := mkRat 7 10 } }
        "move up"
      = (cmd06, "llm")
    ∧ (CommandValidator.validate { confidence_threshold := mkRat 7 10 } cmd06).1 = false := by
  exact (C4_semantic_acceptance_independent_of_validator
    { llm_parse := fun _ => Except.ok cmd06,
      regex_parse := fun _ => Except.ok none,
      validator := { confidence_threshold := mkRat 7 10 } }
    "move up").2.2.2 cmd06 rfl rfl (by decide)

/-- C10: `is_valid` is true exactly when confidence ≥ the hardcoded 0.7
(taking no threshold argument at all), and it applies no stop bypass: a
STOP command below 0.7 is invalid by `is_valid` yet accepted by `validate`
at any threshold. -/
theorem C10_is_valid_hardcoded (c : RobotCommand) (v : CommandValidator) :
    (c.is_valid = true ↔ mkRat 7 10 ≤ c.confidence)
    ∧ (c.action = Action.STOP → c.confidence < mkRat 7 10 →
        c.is_valid = false ∧ v.validate c = (true, "ok")) := by
  constructor
  · unfold RobotCommand.is_valid
    exact decide_eq_true_iff
  · intro hstop hconf
    constructor
    · unfold RobotCommand.is_valid
      exact decide_eq_false (not_le.mpr hconf)
    · unfold CommandValidator.validate
      rw [if_pos hstop]

/-- C5: the deterministic parser matches in a fixed, non-reorderable order:
stop cues win outright; rotation cues beat bare left/right; then the
direction families are tried in fixed list order (up, down, left, right,
forward, retract) with the first textually matching family winning; and
with no match at all, parse returns none. -/
theorem C5_fixed_match_order (text : String) :
    (reSearch RegexFallbackParser.STOP_RE (text.data.map Char.toLower) = true →
      ∃ c, RegexFallbackParser.parse text = some c ∧ c.action = Action.STOP)
    ∧ (reSearch RegexFallbackParser.STOP_RE (text.data.map Char.toLower) = false →
       reSearch RegexFallbackParser.ROTATE_LEFT_RE (text.data.map Char.toLower) = true →
      ∃ c, RegexFallbackParser.parse text = some c ∧ c.action = Action.ROTATE_LEFT)
    ∧ (reSearch RegexFallbackParser.STOP_RE (text.data.map Char.toLower) = false →
       reSearch RegexFallbackParser.ROTATE_LEFT_RE (text.data.map Char.toLower) = false →
       reSearch RegexFallbackParser.ROTATE_RIGHT_RE (text.data.map Char.toLower) = true →
      ∃ c, RegexFallbackParser.parse text = some c ∧ c.action = Action.ROTATE_RIGHT)
    ∧ (∀ k, (hk : k < RegexFallbackParser.DIRECTION_PATTERNS.length) →
       reSearch RegexFallbackParser.STOP_RE (text.data.map Char.toLower) = false →
       reSearch RegexFallbackParser.ROTATE_LEFT_RE (text.data.map Char.toLower) = false →
       reSearch RegexFallbackParser.ROTATE_RIGHT_RE (text.data.map Char.toLower) = false →
       (∀ j, (hj : j < k) →
         reSearch (RegexFallbackParser.DIRECTION_PATTERNS.get ⟨j, Nat.lt_trans hj hk⟩).1
           (text.data.map Char.toLower) = false) →
       reSearch (RegexFallbackParser.DIRECTION_PATTERNS.get ⟨k, hk⟩).1
         (text.data.map Char.toLower) = true →
      ∃ c, RegexFallbackParser.parse text = some c
        ∧ c.action = (RegexFallbackParser.DIRECTION_PATTERNS.get ⟨k, hk⟩).2)
    ∧ (reSearch RegexFallbackParser.STOP_RE (text.data.map Char.toLower) = false →
       reSearch RegexFallbackParser.ROTATE_LEFT_RE (text.data.map Char.toLower) = false →
       reSearch RegexFallbackParser.ROTATE_RIGHT_RE (text.data.map Char.toLower) = false →
       (∀ j, (hj : j < RegexFallbackParser.DIRECTION_PATTERNS.length) →
         reSearch (RegexFallbackParser.DIRECTION_PATTERNS.get ⟨j, hj⟩).1
           (text.data.map Char.toLower) = false) →
       RegexFallbackParser.parse text = none) := by
  refine ⟨?_, ?_, ?_, ?_, ?_⟩
  · intro hstop
    refine ⟨{ action := Action.STOP, magnitude := none, frame := "CAMERA",
              confidence := RegexFallbackParser.CONFIDENCE, value_mm := none,
              raw_text := text }, ?_, rfl⟩
    simp only [RegexFallbackParser.parse]
    rw [if_pos hstop]
    rfl
  · intro hstop hrotl
    refine ⟨{ action := Action.ROTATE_LEFT,
              magnitude := some (RegexFallbackParser.get_magnitude (text.data.map Char.toLower)),
              frame := "CAMERA", confidence := RegexFallbackParser.CONFIDENCE,
              value_mm := some (MAGNITUDE_MM
                (RegexFallbackParser.get_magnitude (text.data.map Char.toLower))),
              raw_text := text }, ?_, rfl⟩
    simp only [RegexFallbackParser.parse]
    rw [if_neg (by simp [hstop]), if_pos hrotl]
    rfl
  · intro hstop hrotl hrotr
    refine ⟨{ action := Action.ROTATE_RIGHT,
              magnitude := some (RegexFallbackParser.get_magnitude (text.data.map Char.toLower)),
              frame := "CAMERA", confidence := RegexFallbackParser.CONFIDENCE,
              value_mm := some (MAGNITUDE_MM
                (RegexFallbackParser.get_magnitude (text.data.map Char.toLower))),
              raw_text := text }, ?_, rfl⟩
    simp only [RegexFallbackParser.parse]
    rw [if_neg (by simp [hstop]), if_neg (by simp [hrotl]), if_pos hrotr]
    rfl
  · intro k hk hstop hrotl hrotr hprev hmatch
    have hmd := matchDirections_first (text.data.map Char.toLower)
      RegexFallbackParser.DIRECTION_PATTERNS k hk hprev hmatch
    have hparse : RegexFallbackParser.parse text = RobotCommand.mk?
        { action := (RegexFallbackParser.DIRECTION_PATTERNS.get ⟨k, hk⟩).2,
          magnitude := some (RegexFallbackParser.get_magnitude (text.data.map Char.toLower)),
          confidence := RegexFallbackParser.CONFIDENCE, raw_text := text } := by
      simp only [RegexFallbackParser.parse]
      rw [if_neg (by simp [hstop]), if_neg (by simp [hrotl]), if_neg (by simp [hrotr]), hmd]
    have hsome : (RobotCommand.mk?
        { action := (RegexFallbackParser.DIRECTION_PATTERNS.get ⟨k, hk⟩).2,
          magnitude := some (RegexFallbackParser.get_magnitude (text.data.map Char.toLower)),
          confidence := RegexFallbackParser.CONFIDENCE, raw_text := text }).isSome = true :=
      (mk?_isSome_iff _).mpr
        ⟨show (0 : Rat) ≤ RegexFallbackParser.CONFIDENCE by decide,
         show RegexFallbackParser.CONFIDENCE ≤ 1 by decide⟩
    obtain ⟨c, hc⟩ := Option.isSome_iff_exists.mp hsome
    exact ⟨c, by rw [hparse, hc], mk?_action _ c hc⟩
  · intro hstop hrotl hrotr hall
    simp only [RegexFallbackParser.parse]
    rw [if_neg (by simp [hstop]), if_neg (by simp [hrotl]), if_neg (by simp [hrotr]),
        matchDirections_none (text.data.map Char.toLower)
          RegexFallbackParser.DIRECTION_PATTERNS hall]

/-- C5 witness: "stop going left" resolves to stop over the co-occurring
left cue; "rotate left" resolves to rotate-left rather than move-left;
"move down then up" resolves to move-up because the up family precedes the
down family in the fixed list even though "down" occurs earlier in the
sentence; and a cue-free utterance parses to none. -/
theorem C5_witness :
    (RegexFallbackParser.parse "stop going left").map RobotCommand.action = some Action.STOP
    ∧ (RegexFallbackParser.parse "rotate left").map RobotCommand.action
        = some Action.ROTATE_LEFT
    ∧ (RegexFallbackParser.parse "move down then up").map RobotCommand.action
        = some Action.MOVE_UP
    ∧ RegexFallbackParser.parse "how are you today" = none := by
  refine ⟨?_, ?_, ?_, ?_⟩
  · obtain ⟨c, hc, ha⟩ := (C5_fixed_match_order "stop going left").1 (by decide)
    rw [hc]
    simp [ha]
  · obtain ⟨c, hc, ha⟩ := (C5_fixed_match_order "rotate left").2.1 (by decide) (by decide)
    rw [hc]
    simp [ha]
  · obtain ⟨c, hc, ha⟩ := (C5_fixed_match_order "move down then up").2.2.2.1 0 (by decide)
      (by decide) (by decide) (by decide) (fun j hj => absurd hj (Nat.not_lt_zero j)) (by decide)
    rw [hc]
    simp [ha]
    rfl
  · exact (C5_fixed_match_order "how are you today").2.2.2.2 (by decide) (by decide) (by decide)
      (by decide)

/-- C10 witness: the regex-tier STOP command (confidence 0.6) is rejected
by `is_valid` but accepted by `validate` at threshold 0.7. -/
theorem C10_witness :
    stop06.action = Action.STOP
    ∧ stop06.confidence = mkRat 3 5
    ∧ stop06.is_valid = false
    ∧ CommandValidator.validate { confidence_threshold := mkRat 7 10 } stop06 = (true, "ok") := by
  have h := (C10_is_valid_hardcoded stop06 { confidence_threshold := mkRat 7 10 }).2
    rfl (by decide)
  exact ⟨rfl, rfl, h.1, h.2⟩

end G1
